import Mathlib

/-!
Shallow embedding of the Rainfall-Prediction-App core pipeline (src/app.py)
and verification of its specified properties.

Conventions of the embedding:
* Python floats are modelled as rationals (every finite IEEE double is a
  rational; no claim here depends on rounding of binary floats).
* Python's built-in round (banker's rounding, ties to even) is modelled by
  pythonRound below.
* The fallible fetch path is modelled by passing the outcome of the single
  HTTP call (requests.get + raise_for_status + response.json()) as an
  explicit argument of type NetOutcome.
* Python dicts are modelled as association lists with Python's update
  semantics (dictSet); pandas column selection pd.DataFrame([d])[cols] is
  modelled by selectColumns, which fails exactly when a requested column is
  absent (pandas raises KeyError then).
-/

/-- Python's built-in round for a rational: nearest integer, ties to even
(banker's rounding). Models the call round(d / 22.5) in app.py line 37. -/
def pythonRound (q : ℚ) : ℤ :=
  if q - ⌊q⌋ < 1/2 then ⌊q⌋
  else if 1/2 < q - ⌊q⌋ then ⌊q⌋ + 1
  else if ⌊q⌋ % 2 = 0 then ⌊q⌋ else ⌊q⌋ + 1

/-- The 16 cardinal-direction labels, app.py line 36. -/
def dirs : List String :=
  ["N", "NNE", "NE", "ENE", "E", "ESE", "SE", "SSE",
   "S", "SSW", "SW", "WSW", "W", "WNW", "NW", "NNW"]

/-- Embedding of degrees_to_cardinal (app.py lines 34-38):
ix = int(round(d / (360. / len(dirs)))); return dirs[ix % len(dirs)].
Python's % on integers with positive modulus is Int.emod.  Python list
indexing with an index in [0, 16) is total; the default "" of getD is never
reached (claim C10). -/
def degrees_to_cardinal (d : ℚ) : String :=
  dirs.getD ((pythonRound (d / ((360 : ℚ) / 16)) % 16).toNat) ""

/-- The optional wind object of the provider payload; each field may be
absent (app.py line 59 and 63 use .get with defaults). -/
structure Wind where
  gust : Option ℚ
  speed : Option ℚ
  deg : Option ℚ
deriving Repr, DecidableEq

/-- A successfully parsed provider payload.  The main fields are accessed by
direct indexing in app.py lines 57-62, so their absence is a parse/shape
failure and is modelled on the NetOutcome side, not here. -/
structure Payload where
  temp_min : ℚ
  temp_max : ℚ
  humidity : ℚ
  pressure : ℚ
  temp : ℚ
  wind : Option Wind
deriving Repr, DecidableEq

/-- The normalized observation built in app.py lines 56-64 (the
weather_details dict). -/
structure WeatherObservation where
  MinTemp : ℚ
  MaxTemp : ℚ
  WindGustSpeed : ℚ
  Humidity : ℚ
  Pressure : ℚ
  Temp : ℚ
  WindGustDir : String
deriving Repr, DecidableEq

/-- app.py lines 56-64: build the weather_details record from the payload.
WindGustSpeed is data.get('wind', \x7b\x7d).get('gust', data.get('wind',
\x7b\x7d).get('speed', 0)) * 3.6, and WindGustDir feeds
data.get('wind', \x7b\x7d).get('deg', 0) through degrees_to_cardinal. -/
def observationOfPayload (p : Payload) : WeatherObservation :=
  { MinTemp := p.temp_min
    MaxTemp := p.temp_max
    WindGustSpeed := ((p.wind.bind Wind.gust).getD ((p.wind.bind Wind.speed).getD 0)) * (3.6 : ℚ)
    Humidity := p.humidity
    Pressure := p.pressure
    Temp := p.temp
    WindGustDir := degrees_to_cardinal ((p.wind.bind Wind.deg).getD 0) }

/-- Spec 4.2 wording of the wind-gust-speed selection, for comparison with
the code expression embedded in observationOfPayload: prefer the provider
gust if present, otherwise the general wind speed, otherwise 0; convert
m/s to km/h by multiplying by 3.6. -/
def windGustSpeedSpec (p : Payload) : ℚ :=
  match p.wind with
  | none => 0
  | some w =>
    (match w.gust with
     | some g => g
     | none =>
       match w.speed with
       | some s => s
       | none => 0) * (3.6 : ℚ)

/-- Outcome of the single guarded HTTP interaction in app.py lines 51-54:
either requests.get itself raised (network failure, caught by the generic
except clause), or a response arrived with a status code, a description
(the text rendered into str(HTTPError)), and a body whose JSON
parse/field-extraction either produced a Payload or raised (also caught by
the generic except clause).  requests' raise_for_status raises HTTPError
exactly for status codes in [400, 600). -/
inductive NetOutcome where
  | exc (cause : String)
  | resp (status : Nat) (desc : String) (body : Except String Payload)

/-- The distinct error return sites of fetch_weather_data (app.py lines
43-74), tagged by the spec's error-kind names. -/
inductive FetchError where
  | missingCredential
  | missingLocation
  | invalidCredential
  | locationNotFound (city : String)
  | providerError (status : Nat) (desc : String)
  | unexpected (cause : String)
deriving Repr, DecidableEq

/-- The exact user-visible message string each error site returns in
app.py. -/
def FetchError.message : FetchError → String
  | .missingCredential => "API Key is not configured. Please add it to your secrets.toml file."
  | .missingLocation => "City name is missing."
  | .invalidCredential => "Invalid API Key in secrets.toml. Please check your key or wait for it to become active."
  | .locationNotFound city => "City '" ++ city ++ "' not found. Please check the spelling."
  | .providerError status desc => "An HTTP error occurred: " ++ toString status ++ " " ++ desc
  | .unexpected cause => "An unexpected error occurred: " ++ cause

/-- Embedding of fetch_weather_data (app.py lines 41-74).  The function
returns the pair (observation, error) exactly as the source does; the
network interaction is passed in as a NetOutcome.  Python's `if not s` on a
string is the empty-string test. -/
def fetch_weather_data (city api_key : String) (net : NetOutcome) :
    Option WeatherObservation × Option FetchError :=
  if api_key = "" then (none, some .missingCredential)
  else if city = "" then (none, some .missingLocation)
  else
    match net with
    | .exc cause => (none, some (.unexpected cause))
    | .resp status desc body =>
      if 400 ≤ status ∧ status < 600 then
        if status = 401 then (none, some .invalidCredential)
        else if status = 404 then (none, some (.locationNotFound city))
        else (none, some (.providerError status desc))
      else
        match body with
        | .error cause => (none, some (.unexpected cause))
        | .ok p => (some (observationOfPayload p), none)

/-- True iff an optional fetch error is the ProviderError kind. -/
def isProviderError : Option FetchError → Bool
  | some (FetchError.providerError _ _) => true
  | _ => false

/-- Contiguous-sublist test on character lists; models Python's
`pat in s` substring operator. -/
def containsSublist (pat : List Char) : List Char → Bool
  | [] => pat.isPrefixOf []
  | c :: rest => pat.isPrefixOf (c :: rest) || containsSublist pat rest

/-- Python `pat in s` for strings. -/
def strContains (s pat : String) : Bool := containsSublist pat.toList s.toList

/-- Python s.endswith(suffix). -/
def strEndsWith (s sfx : String) : Bool := sfx.toList.isSuffixOf s.toList

/-- The keys of the weather_details dict after WindGustDir is popped
(app.py lines 145-146), in insertion order. -/
def baseNames : List String :=
  ["MinTemp", "MaxTemp", "WindGustSpeed", "Humidity", "Pressure", "Temp"]

/-- The numeric part of the observation as a Python dict (association
list), i.e. input_data after input_data.pop('WindGustDir'). -/
def obsDict (o : WeatherObservation) : List (String × ℚ) :=
  [("MinTemp", o.MinTemp), ("MaxTemp", o.MaxTemp), ("WindGustSpeed", o.WindGustSpeed),
   ("Humidity", o.Humidity), ("Pressure", o.Pressure), ("Temp", o.Temp)]

/-- Python dict assignment d[k] = v: overwrite in place if the key exists,
otherwise append at the end. -/
def dictSet (d : List (String × ℚ)) (k : String) (v : ℚ) : List (String × ℚ) :=
  if d.any (fun p => p.1 == k) then
    d.map (fun p => if p.1 = k then (k, v) else p)
  else d ++ [(k, v)]

/-- The one-hot loop of app.py lines 148-150:
for feature in model_features:
    if 'WindGustDir_' in feature:
        input_data[feature] = 1 if feature.endswith(wind_dir) else 0. -/
def oneHotPass (features : List String) (windDir : String) (d : List (String × ℚ)) :
    List (String × ℚ) :=
  features.foldl
    (fun acc f =>
      if strContains f "WindGustDir_" then
        dictSet acc f (if strEndsWith f windDir then 1 else 0)
      else acc) d

/-- pandas column selection pd.DataFrame([d])[cols] (app.py line 152):
returns the columns in the order of cols, raising KeyError when a requested
column is absent from the dict. -/
def selectColumns (d : List (String × ℚ)) : List String → Except String (List (String × ℚ))
  | [] => Except.ok []
  | c :: cs =>
    match List.lookup c d with
    | none => Except.error ("KeyError: " ++ c ++ " not in index")
    | some v =>
      match selectColumns d cs with
      | Except.error e => Except.error e
      | Except.ok rest => Except.ok ((c, v) :: rest)

/-- The feature-building step of the prediction handler (app.py lines
145-152): copy the observation dict, pop WindGustDir, run the one-hot loop
over the model's declared feature list, then select the columns in the
declared order. -/
def buildInput (o : WeatherObservation) (features : List String) :
    Except String (List (String × ℚ)) :=
  selectColumns (oneHotPass features o.WindGustDir (obsDict o)) features

/-- The loaded classifier artifact: its binary-decision and
probability-estimation functions (app.py lines 155-156 invoke them on the
built vector).  Their internals are irrelevant to every claim here. -/
structure TrainedModel where
  predict : List ℚ → ℤ
  predict_proba : List ℚ → ℚ

/-- The prediction branch of the button handler (app.py lines 142-156):
build the input vector and invoke the model; any error raised while
building propagates out of the handler. -/
def handlePrediction (o : WeatherObservation) (features : List String) (m : TrainedModel) :
    Except String (ℤ × ℚ) :=
  match buildInput o features with
  | .error e => .error e
  | .ok row => .ok (m.predict (row.map Prod.snd), m.predict_proba (row.map Prod.snd))

/-- What the top of the request cycle renders. -/
inductive RenderOutcome where
  | errorMessage (msg : String)
  | rendered (label : ℤ) (probability : ℚ)

/-- Modelled from the spec: the top of the request cycle (the script runner
hosting app.py, which is not part of src/) catches every error raised
during the fetch/predict cycle and surfaces it as a user-visible message;
none crashes the process (spec section 7, propagation policy). -/
def runPredictionCycle (o : WeatherObservation) (features : List String) (m : TrainedModel) :
    RenderOutcome :=
  match handlePrediction o features m with
  | .error msg => .errorMessage msg
  | .ok r => .rendered r.1 r.2

/-- The 16 one-hot wind-direction column names, one per label. -/
def oneHotFeatures : List String := dirs.map (fun l => "WindGustDir_" ++ l)

/-- A full feature list as produced at training time: the six numeric
attributes plus one marker column per cardinal direction. -/
def fullFeatures : List String := baseNames ++ oneHotFeatures

/-- The values of the wind-direction marker columns of a built row. -/
def windDirValues (row : List (String × ℚ)) : List ℚ :=
  (row.filter (fun p => strContains p.1 "WindGustDir_")).map Prod.snd

/-- A concrete observation whose wind direction is the label E. -/
def obsE : WeatherObservation :=
  { MinTemp := 20, MaxTemp := 30, WindGustSpeed := 18, Humidity := 60,
    Pressure := 1012, Temp := 25, WindGustDir := "E" }

/-- A concrete observation whose wind direction is the label N. -/
def obsN : WeatherObservation :=
  { MinTemp := 8, MaxTemp := 17, WindGustSpeed := 36, Humidity := 94,
    Pressure := 1007, Temp := 12, WindGustDir := "N" }

/-- A concrete payload whose provider gust speed is 10 m/s. -/
def payload10 : Payload :=
  { temp_min := 20, temp_max := 30, humidity := 60, pressure := 1012,
    temp := 25, wind := some { gust := some 10, speed := some 5, deg := some 90 } }

/-- A concrete trained-model stand-in for witnesses. -/
def model0 : TrainedModel :=
  { predict := fun _ => 1, predict_proba := fun _ => 73/100 }

/-- The row the builder produces for obsE over fullFeatures (computed by
the embedded code; see claim1_code_bug). -/
def rowE : List (String × ℚ) :=
  [("MinTemp", 20), ("MaxTemp", 30), ("WindGustSpeed", 18), ("Humidity", 60),
   ("Pressure", 1012), ("Temp", 25),
   ("WindGustDir_N", 0), ("WindGustDir_NNE", 1), ("WindGustDir_NE", 1),
   ("WindGustDir_ENE", 1), ("WindGustDir_E", 1), ("WindGustDir_ESE", 1),
   ("WindGustDir_SE", 1), ("WindGustDir_SSE", 1), ("WindGustDir_S", 0),
   ("WindGustDir_SSW", 0), ("WindGustDir_SW", 0), ("WindGustDir_WSW", 0),
   ("WindGustDir_W", 0), ("WindGustDir_WNW", 0), ("WindGustDir_NW", 0),
   ("WindGustDir_NNW", 0)]

/-! ## Helper lemmas for the Direction Encoder -/

/-- Adding an even integer commutes with banker's rounding (the parity of
the floor is preserved, so the tie-to-even choice is unchanged). -/
theorem pythonRound_add_two_mul (q : ℚ) (m : ℤ) :
    pythonRound (q + (2 * m : ℤ)) = pythonRound q + 2 * m := by
  unfold pythonRound
  rw [Int.floor_add_int]
  have h2 : q + ((2 * m : ℤ) : ℚ) - ((⌊q⌋ + 2 * m : ℤ) : ℚ) = q - (⌊q⌋ : ℚ) := by
    push_cast; ring
  rw [h2]
  have h3 : (⌊q⌋ + 2 * m) % 2 = ⌊q⌋ % 2 := by omega
  rw [h3]
  split_ifs <;> ring

/-- Reading dirs at any index below 16 yields one of the 16 labels. -/
theorem dirs_getD_mem : ∀ i : Nat, i < 16 → dirs.getD i "" ∈ dirs := by decide

/-- The sector index computed by the encoder is nonnegative and below 16. -/
theorem sectorIndex_bounds (q : ℚ) :
    0 ≤ pythonRound q % 16 ∧ pythonRound q % 16 < 16 :=
  ⟨Int.emod_nonneg _ (by norm_num), Int.emod_lt_of_pos _ (by norm_num)⟩

/-! ## Claims about the Direction Encoder -/

/-- C3: for every (rational) degrees value, the encoder computes the sector
index round(degrees / 22.5) modulo 16 — Python round, Python nonnegative
modulo (Int.emod), not truncation — and returns the label of dirs at that
index; the index is always in [0, 16) and the output is one of the 16
labels. -/
theorem claim3_sector_formula (d : ℚ) :
    degrees_to_cardinal d
      = dirs.getD ((pythonRound (d / (22.5 : ℚ)) % 16).toNat) "" ∧
    0 ≤ pythonRound (d / (22.5 : ℚ)) % 16 ∧
    pythonRound (d / (22.5 : ℚ)) % 16 < 16 ∧
    degrees_to_cardinal d ∈ dirs := by
  have h225 : ((360 : ℚ) / 16) = (22.5 : ℚ) := by norm_num
  have hb := sectorIndex_bounds (d / (22.5 : ℚ))
  refine ⟨by rw [degrees_to_cardinal, h225], hb.1, hb.2, ?_⟩
  rw [degrees_to_cardinal, h225]
  exact dirs_getD_mem _ (by omega)

/-- C4: the encoder is periodic with period 360 degrees: for every degrees
value d and integer k, cardinal(d + 360k) = cardinal(d). -/
theorem claim4_periodicity (d : ℚ) (k : ℤ) :
    degrees_to_cardinal (d + 360 * (k : ℚ)) = degrees_to_cardinal d := by
  unfold degrees_to_cardinal
  have harg : (d + 360 * (k : ℚ)) / ((360 : ℚ) / 16)
      = d / ((360 : ℚ) / 16) + ((2 * (8 * k) : ℤ) : ℚ) := by
    push_cast; ring
  rw [harg, pythonRound_add_two_mul]
  have h16 : pythonRound (d / ((360 : ℚ) / 16)) + 2 * (8 * k)
      = pythonRound (d / ((360 : ℚ) / 16)) + 16 * k := by ring
  rw [h16, Int.add_mul_emod_self_left]

/-- C10: for every (rational) input the encoder terminates with an element
of the 16-label list: the computed index is always in range, so the list
read never reaches the out-of-bounds default. -/
theorem claim10_index_safe (d : ℚ) :
    (pythonRound (d / ((360 : ℚ) / 16)) % 16).toNat < dirs.length ∧
    degrees_to_cardinal d ∈ dirs := by
  have hb := sectorIndex_bounds (d / ((360 : ℚ) / 16))
  have hlen : dirs.length = 16 := by decide
  refine ⟨by omega, ?_⟩
  rw [degrees_to_cardinal]
  exact dirs_getD_mem _ (by omega)

/-! ## Claims about the Weather Fetcher -/

/-- C5 counterexample: with both inputs empty the fetch fails with
MissingCredential, not MissingLocation — the credential check runs first
(app.py line 43 before line 45) — so the claim's clause that an empty city
fails with MissingLocation is false at city = "", credential = "". -/
theorem claim5_cex :
    fetch_weather_data "" "" (NetOutcome.exc "unreachable") =
      (none, some FetchError.missingCredential) ∧
    FetchError.missingCredential ≠ FetchError.missingLocation :=
  ⟨rfl, by decide⟩

/-- C5 amended: both precondition checks happen before any network use of
the NetOutcome; an empty credential always fails with MissingCredential,
and an empty city fails with MissingLocation provided the credential is
non-empty (the credential check takes precedence). -/
theorem claim5_amended (city key : String) (net : NetOutcome) :
    (key = "" →
      fetch_weather_data city key net = (none, some FetchError.missingCredential)) ∧
    (key ≠ "" → city = "" →
      fetch_weather_data city key net = (none, some FetchError.missingLocation)) := by
  constructor
  · intro hk
    simp [fetch_weather_data, hk]
  · intro hk hc
    simp [fetch_weather_data, hk, hc]

/-- C5 witness: the amended statement at concrete inputs. -/
theorem claim5_witness :
    fetch_weather_data "Delhi" "" (NetOutcome.exc "x") =
      (none, some FetchError.missingCredential) ∧
    fetch_weather_data "" "abc123" (NetOutcome.exc "x") =
      (none, some FetchError.missingLocation) :=
  ⟨(claim5_amended "Delhi" "" (NetOutcome.exc "x")).1 rfl,
   (claim5_amended "" "abc123" (NetOutcome.exc "x")).2 (by decide) rfl⟩

/-- C6 counterexample: a 304 response is non-2xx, is not 401 and not 404,
yet the fetch does not classify it as ProviderError: raise_for_status
raises only for statuses in [400, 600), so the code falls through to body
parsing and surfaces UnexpectedError on the empty 304 body. -/
theorem claim6_cex :
    fetch_weather_data "Delhi" "key" (NetOutcome.resp 304 "Not Modified"
        (Except.error "Expecting value: line 1 column 1 (char 0)")) =
      (none, some (FetchError.unexpected "Expecting value: line 1 column 1 (char 0)")) ∧
    isProviderError (fetch_weather_data "Delhi" "key" (NetOutcome.resp 304 "Not Modified"
        (Except.error "Expecting value: line 1 column 1 (char 0)"))).2 = false ∧
    ¬ (200 ≤ 304 ∧ 304 < 300) ∧ (304 : Nat) ≠ 401 ∧ (304 : Nat) ≠ 404 :=
  ⟨rfl, rfl, by norm_num, by norm_num, by norm_num⟩

/-- C6 amended: every 4xx/5xx response (the statuses for which
raise_for_status raises) is classified by status: 401 fails with
InvalidCredential, 404 fails with LocationNotFound whose message contains
the queried city name, and any other 4xx/5xx status fails with
ProviderError carrying the raw status and description; 1xx/3xx responses
are instead handed to body parsing. -/
theorem claim6_amended (city key desc : String) (status : Nat)
    (body : Except String Payload) (hk : key ≠ "") (hc : city ≠ "")
    (h4 : 400 ≤ status) (h6 : status < 600) :
    (status = 401 →
      fetch_weather_data city key (NetOutcome.resp status desc body) =
        (none, some FetchError.invalidCredential)) ∧
    (status = 404 →
      fetch_weather_data city key (NetOutcome.resp status desc body) =
        (none, some (FetchError.locationNotFound city)) ∧
      ∃ l r, (FetchError.locationNotFound city).message.toList
        = l ++ city.toList ++ r) ∧
    (status ≠ 401 → status ≠ 404 →
      fetch_weather_data city key (NetOutcome.resp status desc body) =
        (none, some (FetchError.providerError status desc))) := by
  refine ⟨?_, ?_, ?_⟩
  · intro h401
    simp [fetch_weather_data, hk, hc, h401]
  · intro h404
    subst h404
    refine ⟨by simp [fetch_weather_data, hk, hc, h4, h6], ?_⟩
    refine ⟨"City '".toList, "' not found. Please check the spelling.".toList, ?_⟩
    simp [FetchError.message]
  · intro hn1 hn4
    simp [fetch_weather_data, hk, hc, h4, h6, hn1, hn4]

/-- C6 witness: the amended statement at concrete inputs — a 401, a 404 and
a 500 response. -/
theorem claim6_witness :
    fetch_weather_data "Delhi" "k" (NetOutcome.resp 401 "Unauthorized"
        (Except.error "e")) = (none, some FetchError.invalidCredential) ∧
    fetch_weather_data "Delhi" "k" (NetOutcome.resp 404 "Not Found"
        (Except.error "e")) = (none, some (FetchError.locationNotFound "Delhi")) ∧
    fetch_weather_data "Delhi" "k" (NetOutcome.resp 500 "Server Error"
        (Except.error "e")) = (none, some (FetchError.providerError 500 "Server Error")) :=
  ⟨(claim6_amended "Delhi" "k" "Unauthorized" 401 (Except.error "e") (by decide)
      (by decide) (by norm_num) (by norm_num)).1 rfl,
   ((claim6_amended "Delhi" "k" "Not Found" 404 (Except.error "e") (by decide)
      (by decide) (by norm_num) (by norm_num)).2.1 rfl).1,
   (claim6_amended "Delhi" "k" "Server Error" 500 (Except.error "e") (by decide)
      (by decide) (by norm_num) (by norm_num)).2.2 (by norm_num) (by norm_num)⟩

/-- C7: the WindGustSpeed of the built observation follows the spec's
selection rule — provider gust if present, else the general wind speed,
else 0, converted from m/s to km/h by multiplying by 3.6 — and a provider
gust of 10 m/s yields exactly 36 km/h. -/
theorem claim7_wind_gust :
    (∀ p : Payload, (observationOfPayload p).WindGustSpeed = windGustSpeedSpec p) ∧
    (observationOfPayload payload10).WindGustSpeed = 36 := by
  constructor
  · intro p
    rcases hw : p.wind with _ | w
    · simp [observationOfPayload, windGustSpeedSpec, hw]
    · rcases hg : w.gust with _ | g
      · rcases hs : w.speed with _ | s <;>
          simp [observationOfPayload, windGustSpeedSpec, hw, hg, hs]
      · simp [observationOfPayload, windGustSpeedSpec, hw, hg]
  · norm_num [observationOfPayload, payload10]

/-- C9: for every combination of inputs and network outcome the fetch
returns a pair with exactly one present component: every error path yields
(none, some error) and the success path yields (some observation, none). -/
theorem claim9_exactly_one (city key : String) (net : NetOutcome) :
    ((fetch_weather_data city key net).1 = none ∧
      (fetch_weather_data city key net).2.isSome = true) ∨
    ((fetch_weather_data city key net).1.isSome = true ∧
      (fetch_weather_data city key net).2 = none) := by
  unfold fetch_weather_data
  split_ifs with h1 h2
  · left; exact ⟨rfl, rfl⟩
  · left; exact ⟨rfl, rfl⟩
  · rcases net with cause | ⟨status, desc, body⟩
    · left; exact ⟨rfl, rfl⟩
    · by_cases h45 : 400 ≤ status ∧ status < 600
      · simp only [if_pos h45]
        split_ifs <;> (left; exact ⟨rfl, rfl⟩)
      · simp only [if_neg h45]
        rcases body with cause | p
        · left; exact ⟨rfl, rfl⟩
        · right; exact ⟨rfl, rfl⟩

/-! ## Helper lemmas for the Feature Builder -/

/-- Lookup fails exactly when the key differs from every key in the dict. -/
theorem lookup_eq_none_iff (f : String) (l : List (String × ℚ)) :
    List.lookup f l = none ↔ ∀ p ∈ l, f ≠ p.1 := by
  induction l with
  | nil => simp
  | cons p t ih =>
    rcases p with ⟨a, b⟩
    by_cases hfa : f = a
    · subst hfa
      simp [List.lookup]
    · have hba : (f == a) = false := by simp [hfa]
      simp [List.lookup, hba, hfa, ih]

/-- A pair of a Python dict after an assignment either has the assigned key
or was already in the dict. -/
theorem mem_dictSet (p : String × ℚ) (d : List (String × ℚ)) (k : String) (v : ℚ)
    (h : p ∈ dictSet d k v) : p.1 = k ∨ p ∈ d := by
  unfold dictSet at h
  split_ifs at h with hany
  · rcases List.mem_map.1 h with ⟨q, hq, heq⟩
    by_cases hqk : q.1 = k
    · rw [if_pos hqk] at heq
      left; rw [← heq]
    · rw [if_neg hqk] at heq
      right; rw [← heq]; exact hq
  · rcases List.mem_append.1 h with hq | hq
    · right; exact hq
    · left
      have : p = (k, v) := by simpa using hq
      rw [this]

/-- Assigning a different key preserves the absence of a key. -/
theorem lookup_dictSet_none (f k : String) (v : ℚ) (d : List (String × ℚ))
    (hne : f ≠ k) (h : List.lookup f d = none) :
    List.lookup f (dictSet d k v) = none := by
  rw [lookup_eq_none_iff] at h ⊢
  intro p hp
  rcases mem_dictSet p d k v hp with h1 | h1
  · rw [h1]; exact hne
  · exact h p h1

/-- Unfolding the one-hot loop one feature at a time. -/
theorem oneHotPass_cons (g : String) (gs : List String) (w : String)
    (d : List (String × ℚ)) :
    oneHotPass (g :: gs) w d
      = oneHotPass gs w
          (if strContains g "WindGustDir_" then
            dictSet d g (if strEndsWith g w then 1 else 0)
          else d) := rfl

/-- The one-hot loop only ever assigns keys containing the marker
substring, so a non-marker key absent before the loop is absent after. -/
theorem lookup_oneHotPass_none (f : String)
    (h2 : strContains f "WindGustDir_" = false) :
    ∀ (fs : List String) (w : String) (d : List (String × ℚ)),
      List.lookup f d = none → List.lookup f (oneHotPass fs w d) = none := by
  intro fs
  induction fs with
  | nil => intro w d h; exact h
  | cons g gs ih =>
    intro w d h
    rw [oneHotPass_cons]
    by_cases hg : strContains g "WindGustDir_"
    · rw [if_pos hg]
      refine ih w _ (lookup_dictSet_none f g _ d ?_ h)
      intro hfg
      rw [hfg, hg] at h2
      simp at h2
    · rw [if_neg hg]
      exact ih w d h

/-- A name outside the six observation attributes is absent from the popped
observation dict. -/
theorem lookup_obsDict_none (o : WeatherObservation) (f : String)
    (h3 : f ∉ baseNames) : List.lookup f (obsDict o) = none := by
  rw [lookup_eq_none_iff]
  intro p hp
  have hpb : p.1 ∈ baseNames := by
    simp [obsDict] at hp
    rcases hp with rfl | rfl | rfl | rfl | rfl | rfl <;> simp [baseNames]
  intro hfp
  rw [hfp] at h3
  exact h3 hpb

/-- Column selection fails whenever a requested column is absent. -/
theorem selectColumns_missing (d : List (String × ℚ)) (f : String) :
    ∀ cols : List String, f ∈ cols → List.lookup f d = none →
      ∃ e, selectColumns d cols = Except.error e := by
  intro cols
  induction cols with
  | nil => intro h _; exact absurd h (List.not_mem_nil f)
  | cons c cs ih =>
    intro hmem hnone
    by_cases hfc : f = c
    · subst hfc
      exact ⟨"KeyError: " ++ f ++ " not in index", by simp [selectColumns, hnone]⟩
    · have hcs : f ∈ cs := by
        rcases List.mem_cons.1 hmem with h | h
        · exact absurd h hfc
        · exact h
      rcases hl : List.lookup c d with _ | v
      · exact ⟨"KeyError: " ++ c ++ " not in index", by simp [selectColumns, hl]⟩
      · rcases ih hcs hnone with ⟨e, he⟩
        exact ⟨e, by simp [selectColumns, hl, he]⟩

/-- A successful column selection returns the requested names in the
requested order. -/
theorem selectColumns_names (d : List (String × ℚ)) :
    ∀ (cols : List String) (out : List (String × ℚ)),
      selectColumns d cols = Except.ok out → out.map Prod.fst = cols := by
  intro cols
  induction cols with
  | nil =>
    intro out h
    simp [selectColumns] at h
    subst h; rfl
  | cons c cs ih =>
    intro out h
    rcases hl : List.lookup c d with _ | v
    · simp [selectColumns, hl] at h
    · rcases hrest : selectColumns d cs with e | rest
      · simp [selectColumns, hl, hrest] at h
      · simp [selectColumns, hl, hrest] at h
        rw [← h]
        simp [ih rest hrest]

/-! ## Claims about the Feature Builder and prediction handler -/

/-- C1 (code bug witnessed): for the observation with WindGustDir = "E" and
the full training-time feature list (one marker column per label), the
build step assigns 1 to SEVEN wind-direction columns — every column whose
name merely ends with "E" — because the loop tests feature.endswith(
wind_dir) instead of comparing the direction suffix for equality; the
one-hot columns sum to 7, not 1. -/
theorem claim1_code_bug :
    (buildInput obsE fullFeatures).map (fun row => (windDirValues row).sum)
      = Except.ok 7 ∧ (7 : ℚ) ≠ 1 := by
  have hrow : buildInput obsE fullFeatures = Except.ok rowE := rfl
  have hvals : windDirValues rowE
      = [0, 1, 1, 1, 1, 1, 1, 1, 0, 0, 0, 0, 0, 0, 0, 0] := rfl
  have hsum : ([0, 1, 1, 1, 1, 1, 1, 1, 0, 0, 0, 0, 0, 0, 0, 0] : List ℚ).sum = 7 := by
    norm_num [List.sum_cons, List.sum_nil]
  constructor
  · rw [hrow]
    simp [Except.map, hvals, hsum]
  · norm_num

/-- C2: if some feature name in the declared list is neither a
wind-direction marker column nor one of the six observation attributes,
the build step fails (pandas raises KeyError on the missing column, the
spec's UnknownFeature), the handler propagates the error, and the top of
the request cycle surfaces it as a user-visible message instead of
crashing. -/
theorem claim2_unknown_feature (o : WeatherObservation) (features : List String)
    (m : TrainedModel) (f : String) (h1 : f ∈ features)
    (h2 : strContains f "WindGustDir_" = false) (h3 : f ∉ baseNames) :
    ∃ msg, handlePrediction o features m = Except.error msg ∧
      runPredictionCycle o features m = RenderOutcome.errorMessage msg := by
  have hd : List.lookup f (oneHotPass features o.WindGustDir (obsDict o)) = none :=
    lookup_oneHotPass_none f h2 features o.WindGustDir (obsDict o)
      (lookup_obsDict_none o f h3)
  rcases selectColumns_missing _ f features h1 hd with ⟨e, he⟩
  have hb : buildInput o features = Except.error e := he
  have hh : handlePrediction o features m = Except.error e := by
    simp [handlePrediction, hb]
  exact ⟨e, hh, by simp [runPredictionCycle, hh]⟩

/-- C2 witness: a feature list containing the non-attribute, non-marker
name RainToday makes the handler fail with a surfaced message. -/
theorem claim2_witness :
    ("RainToday" ∈ ["MinTemp", "RainToday"] ∧
      strContains "RainToday" "WindGustDir_" = false ∧
      "RainToday" ∉ baseNames) ∧
    ∃ msg, handlePrediction obsN ["MinTemp", "RainToday"] model0 = Except.error msg ∧
      runPredictionCycle obsN ["MinTemp", "RainToday"] model0
        = RenderOutcome.errorMessage msg :=
  ⟨⟨by decide, by decide, by decide⟩,
   claim2_unknown_feature obsN ["MinTemp", "RainToday"] model0 "RainToday"
     (by decide) (by decide) (by decide)⟩

/-- C8: whenever the build step succeeds, the sequence of feature names of
the produced vector is identical to the declared feature sequence. -/
theorem claim8_order (o : WeatherObservation) (features : List String)
    (out : List (String × ℚ)) (h : buildInput o features = Except.ok out) :
    out.map Prod.fst = features :=
  selectColumns_names _ features out h

/-- C8 witness: the order property at a concrete observation and feature
list. -/
theorem claim8_witness :
    buildInput obsN ["MinTemp", "Temp"]
      = Except.ok [("MinTemp", (8 : ℚ)), ("Temp", (12 : ℚ))] ∧
    ([("MinTemp", (8 : ℚ)), ("Temp", (12 : ℚ))]).map Prod.fst = ["MinTemp", "Temp"] :=
  ⟨rfl, claim8_order obsN ["MinTemp", "Temp"] _ rfl⟩
